import Mathlib

/-!
Verification development for the statement-ingestion pipeline of the
net-worth tracker: the extraction schema (`reports/schemas.py`), the
reconciliation engine (`reports/services.py`), the upload state machine
(`reports/models.py`) and the orchestration task (`reports/tasks.py`),
shallowly embedded as pure Lean functions over an explicit database state.

Monetary amounts are embedded as `Int` scaled by 10^4 (the schema's
`condecimal(max_digits=18, decimal_places=4)`), so 1000.00 is 10000000.
Confidence scores are `Int` scaled by 10^2 on the internal 0-1 scale
(0.92 is 92) and by 10^2 on the persisted 0-100 scale (92.00 is 9200).
-/

namespace NetWorth

/-- Python-style truthiness for an optional string: `None` and `""` are falsy. -/
def strTruthy : Option String → Bool
  | none => false
  | some s => s ≠ ""

/-- Python `a or default` for an optional string operand. -/
def strOr (o : Option String) (d : String) : String :=
  match o with
  | none => d
  | some s => if s = "" then d else s

/-- Python truthiness of an optional Decimal: `None` and `0` are falsy. -/
def moneyTruthy : Option Int → Bool
  | none => false
  | some v => v ≠ 0

/-- `startsWithL n h` is true when list `n` is a prefix of list `h`. -/
def startsWithL : List Char → List Char → Bool
  | [], _ => true
  | _ :: _, [] => false
  | a :: as, b :: bs => a == b && startsWithL as bs

/-- `containsSub n h` is true when list `n` occurs contiguously inside `h`. -/
def containsSub (needle : List Char) : List Char → Bool
  | [] => startsWithL needle []
  | c :: cs => startsWithL needle (c :: cs) || containsSub needle cs

/-- Python `needle in hay` on strings (contiguous substring test). -/
def strContains (hay needle : String) : Bool :=
  containsSub needle.toList hay.toList

/-- Python `str.lower()` (ASCII range, which covers every keyword and enum
value the pipeline lowercases), char by char. -/
def strToLower (s : String) : String := ⟨s.toList.map Char.toLower⟩

/-- Python `str.upper()` (ASCII range), char by char. -/
def strToUpper (s : String) : String := ⟨s.toList.map Char.toUpper⟩

/-- Python `str.replace(old, new)` for a one-character pattern, as in
`account_type_value.replace("_", " ")`. -/
def strReplaceChar (s : String) (old new' : Char) : String :=
  ⟨s.toList.map (fun c => if c = old then new' else c)⟩

/-- One step of Python `str.title()`: a cased character is uppercased after a
non-alphabetic character and lowercased after an alphabetic one. -/
def pyTitleAux : List Char → Bool → List Char
  | [], _ => []
  | c :: cs, prevAlpha =>
    (if c.isAlpha then (if prevAlpha then c.toLower else c.toUpper) else c)
      :: pyTitleAux cs c.isAlpha

/-- Python `str.title()`. -/
def pyTitle (s : String) : String := ⟨pyTitleAux s.toList false⟩

/-! ## Closed enumerations (`common/enums.py`), embedded as their string values -/

/-- `AccountType.values()` from `common/enums.py`. -/
def accountTypeValues : List String :=
  ["CHECKING", "SAVINGS", "CURRENT", "MONEY_MARKET", "CREDIT_CARD",
   "LOAN", "MORTGAGE", "AUTO_LOAN", "STUDENT_LOAN", "PERSONAL_LOAN"]

/-- `TransactionType.values()` from `common/enums.py`. -/
def transactionTypeValues : List String :=
  ["DEBIT", "CREDIT", "FEE", "INTEREST", "TRANSFER", "PAYMENT",
   "WITHDRAWAL", "DEPOSIT", "PURCHASE", "REFUND", "OTHER"]

/-- `HistorySource.MANUAL`. -/
def MANUAL : String := "MANUAL"

/-- `HistorySource.STATEMENT_UPLOAD`. -/
def STATEMENT_UPLOAD : String := "STATEMENT_UPLOAD"

/-! ## Extraction schema data (`reports/schemas.py`) -/

/-- A calendar date as pydantic parses it; only `.day` is read downstream. -/
structure PyDate where
  year : Nat
  month : Nat
  day : Nat
deriving Repr, DecidableEq

/-- `StatementPeriod` from `reports/schemas.py`. -/
structure StatementPeriodE where
  start_date : Option PyDate := none
  end_date : Option PyDate := none
  statement_issue_date : Option PyDate := none
deriving Repr, DecidableEq

/-- `MerchantInfo` from `reports/schemas.py`. -/
structure MerchantInfoE where
  name : Option String := none
  category : Option String := none
  city : Option String := none
  country : Option String := none
  raw_merchant_line : Option String := none
deriving Repr, DecidableEq

/-- `Transaction` from `reports/schemas.py`; `metadata` is modelled as a
finite key-value list standing in for the JSON `Dict[str, Any]`. -/
structure TransactionE where
  transaction_id : Option String := none
  posting_date : Option PyDate := none
  transaction_date : Option PyDate := none
  description : String
  transaction_type : String
  amount : Int
  currency : Option String := none
  balance_after_transaction : Option Int := none
  original_amount : Option Int := none
  original_currency : Option String := none
  category : Option String := none
  merchant : Option MerchantInfoE := none
  metadata : Option (List (String × String)) := none
deriving Repr, DecidableEq

/-- `RewardsSummary` from `reports/schemas.py`. -/
structure RewardsSummaryE where
  points_earned_in_period : Option Int := none
  points_redeemed_in_period : Option Int := none
  points_balance_end : Option Int := none
  cashback_earned_in_period : Option Int := none
  cashback_redeemed_in_period : Option Int := none
deriving Repr, DecidableEq

/-- `CreditCardSpecificSummary` from `reports/schemas.py`. -/
structure CreditCardSummaryE where
  previous_balance : Option Int := none
  payments_and_credits : Option Int := none
  purchases : Option Int := none
  cash_advances : Option Int := none
  interest_charged : Option Int := none
  fees_charged : Option Int := none
  statement_balance : Option Int := none
  credit_limit : Option Int := none
  available_credit : Option Int := none
  minimum_payment_due : Option Int := none
  payment_due_date : Option PyDate := none
deriving Repr, DecidableEq

/-- `DepositAccountSpecificSummary` from `reports/schemas.py`. -/
structure DepositSummaryE where
  average_daily_balance : Option Int := none
  interest_earned : Option Int := none
  overdraft_fees : Option Int := none
  atm_withdrawals_count : Option Int := none
  other_fees : Option Int := none
deriving Repr, DecidableEq

/-- `AccountSummary` from `reports/schemas.py`. `account_type` is carried as
its string value (the pydantic enum's `.value`), which is how
`populate_from_extraction` compares it. -/
structure AccountSummaryE where
  account_holder_name : Option String := none
  account_number_masked : Option String := none
  institution_name : Option String := none
  account_type : String
  currency : Option String := none
  statement_period : Option StatementPeriodE := none
  opening_balance : Option Int := none
  closing_balance : Option Int := none
  total_credits : Option Int := none
  total_debits : Option Int := none
  credit_card_summary : Option CreditCardSummaryE := none
  deposit_account_summary : Option DepositSummaryE := none
deriving Repr, DecidableEq

/-- `AccountStatementExtraction` from `reports/schemas.py`. -/
structure Extraction where
  account_summary : AccountSummaryE
  transactions : List TransactionE := []
  rewards_summary : Option RewardsSummaryE := none
  notes : Option String := none
  parsing_confidence : Option Int := none
deriving Repr, DecidableEq

/-! ## Schema validation (`reports/schemas.py`)

Pydantic reports every offending field; the embedding returns the first
failure, which is outcome-equivalent for acceptance/rejection. -/

/-- The `CurrencyCode` constraint `constr(pattern=r"^[A-Z]{3}$")`. -/
def isCurrencyCode (s : String) : Bool :=
  s.length = 3 && s.toList.all (fun c => 'A' ≤ c && c ≤ 'Z')

/-- The `Money` constraint `condecimal(max_digits=18, decimal_places=4)` on
amounts scaled by 10^4: at most 18 significant digits in total. -/
def moneyOk (v : Int) : Bool := v.natAbs < 10 ^ 18

/-- `moneyOk` lifted to an optional field. -/
def moneyOkOpt : Option Int → Bool
  | none => true
  | some v => moneyOk v

/-- The `ConfidenceScore` constraint `condecimal(ge=0, le=1, max_digits=3,
decimal_places=2)` on values scaled by 10^2. -/
def confidenceOk : Option Int → Bool
  | none => true
  | some c => 0 ≤ c && c ≤ 100

/-- Currency-pattern check for an optional field (no case normalization:
`AccountSummary.currency` has no `mode="before"` validator). -/
def currencyOkOpt : Option String → Bool
  | none => true
  | some c => isCurrencyCode c

/-- Field checks of `CreditCardSpecificSummary`. -/
def ccSummaryOk (s : CreditCardSummaryE) : Bool :=
  moneyOkOpt s.previous_balance && moneyOkOpt s.payments_and_credits &&
  moneyOkOpt s.purchases && moneyOkOpt s.cash_advances &&
  moneyOkOpt s.interest_charged && moneyOkOpt s.fees_charged &&
  moneyOkOpt s.statement_balance && moneyOkOpt s.credit_limit &&
  moneyOkOpt s.available_credit && moneyOkOpt s.minimum_payment_due

/-- Field checks of `DepositAccountSpecificSummary`. -/
def depSummaryOk (s : DepositSummaryE) : Bool :=
  moneyOkOpt s.average_daily_balance && moneyOkOpt s.interest_earned &&
  moneyOkOpt s.overdraft_fees && moneyOkOpt s.other_fees

/-- All per-field constraints of `AccountSummary`, in declaration order.
The account-level `currency` is matched against `^[A-Z]{3}$` as-is. -/
def summaryFieldsOk (s : AccountSummaryE) : Bool :=
  accountTypeValues.contains s.account_type &&
  currencyOkOpt s.currency &&
  moneyOkOpt s.opening_balance && moneyOkOpt s.closing_balance &&
  moneyOkOpt s.total_credits && moneyOkOpt s.total_debits &&
  (match s.credit_card_summary with | none => true | some c => ccSummaryOk c) &&
  (match s.deposit_account_summary with | none => true | some d => depSummaryOk d)

/-- `Transaction.uppercase_currency` / `uppercase_original_currency`: the
`mode="before"` validators that uppercase transaction-level codes. -/
def normalizeTransaction (t : TransactionE) : TransactionE :=
  { t with currency := t.currency.map strToUpper,
           original_currency := t.original_currency.map strToUpper }

/-- Per-field constraints of `Transaction`, applied after normalization. -/
def transactionFieldsOk (t : TransactionE) : Bool :=
  transactionTypeValues.contains t.transaction_type &&
  moneyOk t.amount &&
  currencyOkOpt t.currency &&
  moneyOkOpt t.balance_after_transaction &&
  moneyOkOpt t.original_amount &&
  currencyOkOpt t.original_currency

/-- Validate one `Transaction`: uppercase the currency codes (`mode="before"`)
then check the constrained fields. -/
def validateTransaction (t : TransactionE) : Except String TransactionE :=
  let t' := normalizeTransaction t
  if transactionFieldsOk t' then .ok t'
  else .error "Transaction field validation failed"

/-- Validate the transaction list in order, returning the first failure. -/
def validateTransactions : List TransactionE → Except String (List TransactionE)
  | [] => .ok []
  | t :: ts =>
    match validateTransaction t with
    | .error m => .error m
    | .ok t' =>
      match validateTransactions ts with
      | .error m => .error m
      | .ok ts' => .ok (t' :: ts')

/-- Field checks of `RewardsSummary`. -/
def rewardsOk : Option RewardsSummaryE → Bool
  | none => true
  | some r => moneyOkOpt r.cashback_earned_in_period &&
              moneyOkOpt r.cashback_redeemed_in_period

/-- Validate `AccountSummary` (its own per-field constraints only; the
period-or-balances rule lives on the outer model). No value is rewritten:
`AccountSummary` has no normalizing validator. -/
def validateAccountSummary (s : AccountSummaryE) : Except String AccountSummaryE :=
  if summaryFieldsOk s then .ok s
  else .error "AccountSummary field validation failed"

/-- The condition rejected by
`AccountStatementExtraction.require_period_or_balances`. -/
def anchorPresent (s : AccountSummaryE) : Bool :=
  !(s.statement_period.isNone && s.opening_balance.isNone &&
    s.closing_balance.isNone)

/-- `AccountStatementExtraction.model_validate`: fields in declaration order,
with `require_period_or_balances` running right after `account_summary`. -/
def validateExtraction (e : Extraction) : Except String Extraction :=
  match validateAccountSummary e.account_summary with
  | .error m => .error m
  | .ok s =>
    if !anchorPresent s then
      .error "At least statement_period or opening/closing balances should be present."
    else
      match validateTransactions e.transactions with
      | .error m => .error m
      | .ok ts =>
        if !rewardsOk e.rewards_summary then
          .error "RewardsSummary field validation failed"
        else if !confidenceOk e.parsing_confidence then
          .error "parsing_confidence out of range"
        else
          .ok { e with account_summary := s, transactions := ts }

/-! ## Financial records (`assets/models.py`, `liabilities/models.py`,
`currencies/models.py`) and database state -/

/-- An `Asset` row; only the fields the pipeline reads or writes. -/
structure Asset where
  id : Nat
  user : Nat
  institution : String
  account_number : Option String
  asset_type : String
  name : String
  value : Int
  currency : String
  is_active : Bool
deriving Repr, DecidableEq

/-- A `Liability` row; only the fields the pipeline reads or writes. -/
structure Liability where
  id : Nat
  user : Nat
  creditor : String
  account_number : Option String
  liability_type : String
  name : String
  balance : Int
  currency : String
  is_active : Bool
  credit_limit : Option Int := none
  monthly_payment : Option Int := none
  payment_due_date : Option Nat := none
deriving Repr, DecidableEq

/-- An `AssetHistory` row. -/
structure AssetHist where
  asset_id : Nat
  value : Int
  currency : String
  source : String
deriving Repr, DecidableEq

/-- A `LiabilityHistory` row. -/
structure LiabHist where
  liability_id : Nat
  balance : Int
  currency : String
  source : String
deriving Repr, DecidableEq

/-- The relational store as the pipeline sees it: currency codes, position
rows, append-only history rows, and primary-key counters. -/
structure Db where
  currencies : List String
  assets : List Asset
  liabilities : List Liability
  assetHistory : List AssetHist
  liabilityHistory : List LiabHist
  nextAssetId : Nat
  nextLiabId : Nat
deriving Repr, DecidableEq

/-- The empty database. -/
def emptyDb : Db :=
  { currencies := [], assets := [], liabilities := [],
    assetHistory := [], liabilityHistory := [],
    nextAssetId := 0, nextLiabId := 0 }

/-- Number of `STATEMENT_UPLOAD`-tagged history rows across both tables. -/
def suHistCount (db : Db) : Nat :=
  (db.assetHistory.filter (fun h => h.source = STATEMENT_UPLOAD)).length +
  (db.liabilityHistory.filter (fun h => h.source = STATEMENT_UPLOAD)).length

/-- Number of `MANUAL`-tagged history rows across both tables. -/
def manualHistCount (db : Db) : Nat :=
  (db.assetHistory.filter (fun h => h.source = MANUAL)).length +
  (db.liabilityHistory.filter (fun h => h.source = MANUAL)).length

/-- Total number of position rows (assets plus liabilities). -/
def positionCount (db : Db) : Nat :=
  db.assets.length + db.liabilities.length

/-- The lookup key of `Asset.objects.get_or_create` in
`_populate_deposit_account`. -/
def assetKeyMatch (user : Nat) (inst : String) (acct : Option String)
    (ty : String) (a : Asset) : Bool :=
  decide (a.user = user ∧ a.institution = inst ∧
          a.account_number = acct ∧ a.asset_type = ty)

/-- First asset row matching the lookup key. -/
def findAsset (user : Nat) (inst : String) (acct : Option String)
    (ty : String) (l : List Asset) : Option Asset :=
  l.find? (assetKeyMatch user inst acct ty)

/-- The lookup key of `Liability.objects.get_or_create`. -/
def liabKeyMatch (user : Nat) (creditor : String) (acct : Option String)
    (ty : String) (l : Liability) : Bool :=
  decide (l.user = user ∧ l.creditor = creditor ∧
          l.account_number = acct ∧ l.liability_type = ty)

/-- First liability row matching the lookup key. -/
def findLiab (user : Nat) (creditor : String) (acct : Option String)
    (ty : String) (l : List Liability) : Option Liability :=
  l.find? (liabKeyMatch user creditor acct ty)

/-- `Asset.save()` on a fresh row (as run by `get_or_create`'s create path):
inserts the row and, since `skip_history` is not passed, appends a
`MANUAL` history entry for the new asset. -/
def assetCreateSave (a : Asset) (db : Db) : Db :=
  { db with assets := db.assets ++ [a],
            nextAssetId := db.nextAssetId + 1,
            assetHistory := db.assetHistory ++
              [{ asset_id := a.id, value := a.value,
                 currency := a.currency, source := MANUAL }] }

/-- `Asset.save(skip_history=True)` on an existing row: update in place,
no auto-history. -/
def assetUpdateSaveSkip (a : Asset) (db : Db) : Db :=
  { db with assets := db.assets.map (fun x => if x.id = a.id then a else x) }

/-- `Liability.save()` on a fresh row (create path of `get_or_create`):
inserts the row and appends a `MANUAL` history entry. -/
def liabCreateSave (l : Liability) (db : Db) : Db :=
  { db with liabilities := db.liabilities ++ [l],
            nextLiabId := db.nextLiabId + 1,
            liabilityHistory := db.liabilityHistory ++
              [{ liability_id := l.id, balance := l.balance,
                 currency := l.currency, source := MANUAL }] }

/-- `Liability.save(skip_history=True)` on an existing row. -/
def liabUpdateSaveSkip (l : Liability) (db : Db) : Db :=
  { db with liabilities :=
      db.liabilities.map (fun x => if x.id = l.id then l else x) }

/-! ## Reconciliation engine (`reports/services.py`,
`StatementDataPopulatorService`) -/

/-- Result record of `populate_from_extraction` (the `asset`/`liability`
entry is carried as the row id plus a table tag). -/
structure PopResult where
  created : Bool
  updated : Bool
  targetId : Nat
  isAsset : Bool
  history_count : Nat
deriving Repr, DecidableEq

/-- The currency-code resolution inside `_get_or_create_currency`:
`if not currency_code: currency_code = settings.DEFAULT_CURRENCY` followed
by `str(currency_code).upper()`. `defaultCurrency` stands for the
`settings.DEFAULT_CURRENCY` configuration value. -/
def resolveCurrencyCode (defaultCurrency : String) (c : Option String) : String :=
  strToUpper (strOr c defaultCurrency)

/-- `Currency.objects.get_or_create(code=...)` on the currency table. -/
def currencyGetOrCreate (code : String) (l : List String) : List String :=
  if code ∈ l then l else l ++ [code]

/-- `_get_or_create_currency`: resolve the code, then get-or-create the row. -/
def getOrCreateCurrency (defaultCurrency : String) (c : Option String)
    (db : Db) : String × Db :=
  let code := resolveCurrencyCode defaultCurrency c
  (code, { db with currencies := currencyGetOrCreate code db.currencies })

/-- `_infer_loan_type`: ordered, case-insensitive keyword-group matching
over institution name and display name; first matching group wins. -/
def inferLoanType (institution name : String) : String :=
  let text := strToLower (institution ++ " " ++ name)
  if ["mortgage", "home loan", "housing"].any (fun k => strContains text k) then
    "MORTGAGE"
  else if ["auto", "car", "vehicle"].any (fun k => strContains text k) then
    "AUTO_LOAN"
  else if ["student", "education", "tuition"].any (fun k => strContains text k) then
    "STUDENT_LOAN"
  else if ["medical", "health", "hospital"].any (fun k => strContains text k) then
    "MEDICAL_LOAN"
  else
    "PERSONAL_LOAN"

/-- `_populate_deposit_account`: get-or-create the CASH asset keyed by
(user, institution, masked number, type), update its value when it differs
from the closing balance (suppressing auto-history), then unconditionally
append one `STATEMENT_UPLOAD` history entry. -/
def populateDepositAccount (user : Nat) (e : Extraction) (curr : String)
    (db : Db) : Except String PopResult × Db :=
  let s := e.account_summary
  let institution := strOr s.institution_name "Unknown Bank"
  let acct := s.account_number_masked
  let closing := s.closing_balance.getD 0
  let display := pyTitle (strReplaceChar s.account_type '_' ' ')
  let name :=
    if strTruthy acct then
      institution ++ " " ++ display ++ " - " ++ acct.getD ""
    else
      institution ++ " " ++ display
  let (asset, created, db1) :=
    match findAsset user institution acct "CASH" db.assets with
    | some a => (a, false, db)
    | none =>
      let a : Asset :=
        { id := db.nextAssetId, user := user, institution := institution,
          account_number := acct, asset_type := "CASH", name := name,
          value := closing, currency := curr, is_active := true }
      (a, true, assetCreateSave a db)
  let (asset2, updated, db2) :=
    if !created && asset.value ≠ closing then
      let a' := { asset with value := closing, currency := curr,
                             is_active := true }
      (a', true, assetUpdateSaveSkip a' db1)
    else
      (asset, false, db1)
  let db3 := { db2 with assetHistory := db2.assetHistory ++
    [{ asset_id := asset2.id, value := closing, currency := curr,
       source := STATEMENT_UPLOAD }] }
  (.ok { created := created, updated := updated, targetId := asset2.id,
         isAsset := true, history_count := 1 }, db3)

/-- `_populate_credit_card`: like the deposit path but on liabilities, with
credit-card-specific fields copied when truthy. -/
def populateCreditCard (user : Nat) (e : Extraction) (curr : String)
    (db : Db) : Except String PopResult × Db :=
  let s := e.account_summary
  let cc := s.credit_card_summary
  let institution := strOr s.institution_name "Unknown Bank"
  let acct := s.account_number_masked
  let closing := s.closing_balance.getD 0
  let name :=
    if strTruthy acct then institution ++ " - " ++ acct.getD ""
    else institution
  let ccLimit := match cc with
    | none => none
    | some c => if moneyTruthy c.credit_limit then c.credit_limit else none
  let ccMinPay := match cc with
    | none => none
    | some c => if moneyTruthy c.minimum_payment_due then c.minimum_payment_due
                else none
  let ccDueDay := match cc with
    | none => none
    | some c => c.payment_due_date.map PyDate.day
  let (liab, created, db1) :=
    match findLiab user institution acct "CREDIT_CARD" db.liabilities with
    | some l => (l, false, db)
    | none =>
      let l : Liability :=
        { id := db.nextLiabId, user := user, creditor := institution,
          account_number := acct, liability_type := "CREDIT_CARD",
          name := name, balance := closing, currency := curr,
          is_active := true, credit_limit := ccLimit,
          monthly_payment := ccMinPay, payment_due_date := ccDueDay }
      (l, true, liabCreateSave l db)
  let (liab2, updated, db2) :=
    if !created && liab.balance ≠ closing then
      let l' := { liab with
        balance := closing, currency := curr, is_active := true
        credit_limit := if ccLimit.isSome then ccLimit else liab.credit_limit
        monthly_payment :=
          if ccMinPay.isSome then ccMinPay else liab.monthly_payment
        payment_due_date :=
          if ccDueDay.isSome then ccDueDay else liab.payment_due_date }
      (l', true, liabUpdateSaveSkip l' db1)
    else
      (liab, false, db1)
  let db3 := { db2 with liabilityHistory := db2.liabilityHistory ++
    [{ liability_id := liab2.id, balance := closing, currency := curr,
       source := STATEMENT_UPLOAD }] }
  (.ok { created := created, updated := updated, targetId := liab2.id,
         isAsset := false, history_count := 1 }, db3)

/-- `_populate_loan`: infers the concrete liability subtype from keywords,
then get-or-create / update / one `STATEMENT_UPLOAD` entry as above. -/
def populateLoan (user : Nat) (e : Extraction) (curr : String)
    (db : Db) : Except String PopResult × Db :=
  let s := e.account_summary
  let institution := strOr s.institution_name "Unknown Lender"
  let acct := s.account_number_masked
  let closing := s.closing_balance.getD 0
  let name :=
    if strTruthy acct then institution ++ " - " ++ acct.getD ""
    else institution
  let ty := inferLoanType institution name
  let (liab, created, db1) :=
    match findLiab user institution acct ty db.liabilities with
    | some l => (l, false, db)
    | none =>
      let l : Liability :=
        { id := db.nextLiabId, user := user, creditor := institution,
          account_number := acct, liability_type := ty, name := name,
          balance := closing, currency := curr, is_active := true }
      (l, true, liabCreateSave l db)
  let (liab2, updated, db2) :=
    if !created && liab.balance ≠ closing then
      let l' := { liab with balance := closing, currency := curr,
                            is_active := true }
      (l', true, liabUpdateSaveSkip l' db1)
    else
      (liab, false, db1)
  let db3 := { db2 with liabilityHistory := db2.liabilityHistory ++
    [{ liability_id := liab2.id, balance := closing, currency := curr,
       source := STATEMENT_UPLOAD }] }
  (.ok { created := created, updated := updated, targetId := liab2.id,
         isAsset := false, history_count := 1 }, db3)

/-- The loan account-type family of the dispatch in
`populate_from_extraction`. -/
def loanAccountTypes : List String :=
  ["LOAN", "MORTGAGE", "AUTO_LOAN", "STUDENT_LOAN", "PERSONAL_LOAN"]

/-- The deposit account-type family of the dispatch. -/
def depositAccountTypes : List String :=
  ["CHECKING", "SAVINGS", "CURRENT", "MONEY_MARKET"]

/-- Whether the account type falls in one of the three supported families. -/
def isSupportedAccountType (at' : String) : Bool :=
  at' = "CREDIT_CARD" || loanAccountTypes.contains at' ||
  depositAccountTypes.contains at'

/-- `populate_from_extraction`: resolve/create the currency, then dispatch
on the account type; unsupported types raise `ValueError` *after* the
currency write has already happened (no surrounding transaction). -/
def populateFromExtraction (defaultCurrency : String) (user : Nat)
    (e : Extraction) (db : Db) : Except String PopResult × Db :=
  let s := e.account_summary
  let (curr, db1) := getOrCreateCurrency defaultCurrency s.currency db
  if s.account_type = "CREDIT_CARD" then
    populateCreditCard user e curr db1
  else if loanAccountTypes.contains s.account_type then
    populateLoan user e curr db1
  else if depositAccountTypes.contains s.account_type then
    populateDepositAccount user e curr db1
  else
    (.error ("Unsupported account type: " ++ s.account_type), db1)

/-! ## Upload state machine (`reports/models.py`, `StatementUpload`) -/

/-- The `status` choices of `StatementUpload`. -/
inductive UStatus where
  | PENDING
  | PROCESSING
  | COMPLETED
  | FAILED
  | REVIEWED
deriving Repr, DecidableEq

/-- A `StatementUpload` row; `processed_at` is modelled as a set/unset flag. -/
structure Upload where
  user : Nat
  status : UStatus
  parsed_data : Option Extraction := none
  confidence_score : Option Int := none
  processed_at : Bool := false
  error_message : Option String := none
deriving Repr, DecidableEq

/-- `StatementUpload.mark_as_processing`: sets `status = PROCESSING`
unconditionally (no guard on the current status). -/
def markAsProcessing (u : Upload) : Upload :=
  { u with status := .PROCESSING }

/-- `StatementUpload.mark_as_completed`. -/
def markAsCompleted (u : Upload) (pd : Extraction) (cs : Int) : Upload :=
  { u with status := .COMPLETED, parsed_data := some pd,
           confidence_score := some cs, processed_at := true }

/-- `StatementUpload.mark_as_failed`. -/
def markAsFailed (u : Upload) (msg : String) : Upload :=
  { u with status := .FAILED, error_message := some msg,
           processed_at := true }

/-- `StatementUpload.mark_as_reviewed`: sets `status = REVIEWED`
unconditionally (no guard on the current status). -/
def markAsReviewed (u : Upload) : Upload :=
  { u with status := .REVIEWED }

/-- `StatementUpload.is_processed`. -/
def isProcessed (u : Upload) : Bool :=
  u.status = .COMPLETED || u.status = .REVIEWED || u.status = .FAILED

/-- `StatementUpload.is_successful`. -/
def isSuccessful (u : Upload) : Bool :=
  u.status = .COMPLETED || u.status = .REVIEWED

/-! ## Orchestration task (`reports/tasks.py`, `parse_and_populate_statement`)

One Celery attempt is driven by what `parse_statement` does on that attempt:
it either returns a validated extraction, or raises one of the exception
kinds the task distinguishes. A missing API key surfaces as a plain
`ValueError` from `_get_client` (`configMissing`), which the task's handler
chain can only catch in the generic `except Exception` branch, exactly like
any transient failure. -/

/-- Outcome of one `parser.parse_statement` call within one task attempt. -/
inductive AttemptOutcome where
  /-- Parse returned a validated extraction. -/
  | parsed (e : Extraction)
  /-- Pydantic `ValidationError` (schema rejected the backend output). -/
  | validationFailure (msg : String)
  /-- `FileNotFoundError` (statement file missing). -/
  | fileMissing (msg : String)
  /-- `ValueError` from `_get_client` (API key not configured). -/
  | configMissing (msg : String)
  /-- Any other exception (network error, backend outage, ...). -/
  | transient (msg : String)
deriving Repr, DecidableEq

/-- The structured `{status, message}` return of the task. -/
inductive TaskRet where
  | success (confidence : Int)
  | error (msg : String)
  | pending
deriving Repr, DecidableEq

/-- Result of driving one upload through the task, with the retry loop
unrolled: the final upload row and database, the backoff delays of the
scheduled retries, and every status transition applied, in order. -/
structure RunResult where
  upload : Upload
  db : Db
  delays : List Nat
  log : List UStatus
  ret : TaskRet
deriving Repr, DecidableEq

/-- The 0-1 to 0-100 confidence conversion in the task:
`if extraction.parsing_confidence:` is Python truthiness, so `None` and a
zero confidence both leave the stored score at `Decimal("0.00")`. -/
def computeConfidence (e : Extraction) : Int :=
  match e.parsing_confidence with
  | none => 0
  | some c => if c = 0 then 0 else c * 100

/-- `shared_task(max_retries=3)`. -/
def maxRetries : Nat := 3

/-- One attempt of `parse_and_populate_statement` plus Celery's retry loop,
unrolled over the per-attempt outcomes. `r` is `self.request.retries`
(number of retries so far). Each attempt re-runs `mark_as_processing`; on a
generic exception, `self.retry(countdown=60 * 2**r)` re-enqueues until
`r = max_retries`, after which `MaxRetriesExceededError` marks the upload
FAILED. -/
def runTaskAux (defaultCurrency : String) :
    List AttemptOutcome → Nat → Upload → Db → List Nat → List UStatus →
    RunResult
  | [], _, u, db, ds, lg => ⟨u, db, ds, lg, .pending⟩
  | o :: rest, r, u, db, ds, lg =>
    let u1 := markAsProcessing u
    let lg1 := lg ++ [UStatus.PROCESSING]
    match o with
    | .parsed e =>
      match populateFromExtraction defaultCurrency u1.user e db with
      | (.ok _res, db1) =>
        let conf := computeConfidence e
        let u2 := markAsCompleted u1 e conf
        ⟨u2, db1, ds, lg1 ++ [UStatus.COMPLETED], .success conf⟩
      | (.error m, db1) =>
        -- the ValueError from populate_from_extraction is a generic exception
        let em := "Unexpected error: " ++ m
        if r < maxRetries then
          runTaskAux defaultCurrency rest (r + 1) u1 db1
            (ds ++ [60 * 2 ^ r]) lg1
        else
          let u2 := markAsFailed u1 ("Max retries exceeded. " ++ em)
          ⟨u2, db1, ds, lg1 ++ [UStatus.FAILED], .error em⟩
    | .validationFailure m =>
      let em := "Pydantic validation error: " ++ m
      let u2 := markAsFailed u1 em
      ⟨u2, db, ds, lg1 ++ [UStatus.FAILED], .error em⟩
    | .fileMissing m =>
      let em := "File not found: " ++ m
      let u2 := markAsFailed u1 em
      ⟨u2, db, ds, lg1 ++ [UStatus.FAILED], .error em⟩
    | .configMissing m =>
      let em := "Unexpected error: " ++ m
      if r < maxRetries then
        runTaskAux defaultCurrency rest (r + 1) u1 db (ds ++ [60 * 2 ^ r]) lg1
      else
        let u2 := markAsFailed u1 ("Max retries exceeded. " ++ em)
        ⟨u2, db, ds, lg1 ++ [UStatus.FAILED], .error em⟩
    | .transient m =>
      let em := "Unexpected error: " ++ m
      if r < maxRetries then
        runTaskAux defaultCurrency rest (r + 1) u1 db (ds ++ [60 * 2 ^ r]) lg1
      else
        let u2 := markAsFailed u1 ("Max retries exceeded. " ++ em)
        ⟨u2, db, ds, lg1 ++ [UStatus.FAILED], .error em⟩

/-- Drive one existing upload through the task under the given sequence of
per-attempt parse outcomes. -/
def runTask (defaultCurrency : String) (outcomes : List AttemptOutcome)
    (u : Upload) (db : Db) : RunResult :=
  runTaskAux defaultCurrency outcomes 0 u db [] []

/-! ## Theorems -/

/-- C7 counterexample: `mark_as_processing` invoked on a COMPLETED upload
does not leave the status unchanged — it unconditionally moves it to
PROCESSING, and `mark_as_reviewed` on a PENDING upload moves it to
REVIEWED, contradicting the claimed PENDING|FAILED and COMPLETED guards. -/
theorem markAsProcessing_unguarded_counterexample :
    (markAsProcessing { user := 0, status := .COMPLETED }).status =
        UStatus.PROCESSING ∧
    UStatus.PROCESSING ≠ UStatus.COMPLETED ∧
    (markAsReviewed { user := 0, status := .PENDING }).status =
        UStatus.REVIEWED ∧
    UStatus.REVIEWED ≠ UStatus.PENDING := by
  refine ⟨rfl, by decide, rfl, by decide⟩

/-- C7 amended: `mark_as_processing` sets the status to PROCESSING from any
current status, and `mark_as_reviewed` sets it to REVIEWED from any current
status; neither method guards on the current status (the PENDING|FAILED
restriction exists only in the admin `trigger_parsing` action). -/
theorem markAsProcessing_markAsReviewed_unconditional (u : Upload) :
    (markAsProcessing u).status = UStatus.PROCESSING ∧
    (markAsReviewed u).status = UStatus.REVIEWED :=
  ⟨rfl, rfl⟩

/-- C8: loan-subtype inference is deterministic case-insensitive substring
matching over institution and display name with ordered keyword groups:
any text containing "mortgage" gives MORTGAGE, "Toyota Auto Finance" gives
AUTO_LOAN, "Generic Lending Co" gives PERSONAL_LOAN, and when several
groups match the earliest group wins (mortgage before auto before student
before medical, with PERSONAL_LOAN as the no-match default). -/
theorem inferLoanType_deterministic_ordered :
    (∀ i n : String, strContains (strToLower (i ++ " " ++ n)) "mortgage" = true →
      inferLoanType i n = "MORTGAGE") ∧
    inferLoanType "Toyota Auto Finance" "Toyota Auto Finance - ****1234" =
      "AUTO_LOAN" ∧
    inferLoanType "Generic Lending Co" "Generic Lending Co" =
      "PERSONAL_LOAN" ∧
    (∀ i n : String,
      (["mortgage", "home loan", "housing"].any
          (fun k => strContains (strToLower (i ++ " " ++ n)) k) = false →
        ["auto", "car", "vehicle"].any
          (fun k => strContains (strToLower (i ++ " " ++ n)) k) = true →
        inferLoanType i n = "AUTO_LOAN") ∧
      (["mortgage", "home loan", "housing"].any
          (fun k => strContains (strToLower (i ++ " " ++ n)) k) = false →
        ["auto", "car", "vehicle"].any
          (fun k => strContains (strToLower (i ++ " " ++ n)) k) = false →
        ["student", "education", "tuition"].any
          (fun k => strContains (strToLower (i ++ " " ++ n)) k) = true →
        inferLoanType i n = "STUDENT_LOAN") ∧
      (["mortgage", "home loan", "housing"].any
          (fun k => strContains (strToLower (i ++ " " ++ n)) k) = false →
        ["auto", "car", "vehicle"].any
          (fun k => strContains (strToLower (i ++ " " ++ n)) k) = false →
        ["student", "education", "tuition"].any
          (fun k => strContains (strToLower (i ++ " " ++ n)) k) = false →
        ["medical", "health", "hospital"].any
          (fun k => strContains (strToLower (i ++ " " ++ n)) k) = true →
        inferLoanType i n = "MEDICAL_LOAN") ∧
      (["mortgage", "home loan", "housing"].any
          (fun k => strContains (strToLower (i ++ " " ++ n)) k) = false →
        ["auto", "car", "vehicle"].any
          (fun k => strContains (strToLower (i ++ " " ++ n)) k) = false →
        ["student", "education", "tuition"].any
          (fun k => strContains (strToLower (i ++ " " ++ n)) k) = false →
        ["medical", "health", "hospital"].any
          (fun k => strContains (strToLower (i ++ " " ++ n)) k) = false →
        inferLoanType i n = "PERSONAL_LOAN")) := by
  refine ⟨?_, by decide, by decide, ?_⟩
  · intro i n h
    unfold inferLoanType
    simp only [List.any_cons, List.any_nil, h, Bool.true_or, if_pos]
  · intro i n
    refine ⟨?_, ?_, ?_, ?_⟩ <;> intro h1 h2 <;>
      unfold inferLoanType <;>
      simp only [h1, h2, Bool.false_eq_true, if_false, if_pos, if_neg] <;>
      intros <;> simp_all

/-- C8 witness: the theorem applied at concrete inputs. -/
theorem inferLoanType_deterministic_ordered_witness :
    inferLoanType "Acme Mortgage Servicing" "Acme Mortgage Servicing" =
      "MORTGAGE" ∧
    inferLoanType "Toyota Auto Finance" "Toyota Auto Finance - ****1234" =
      "AUTO_LOAN" ∧
    inferLoanType "Generic Lending Co" "Generic Lending Co" =
      "PERSONAL_LOAN" ∧
    inferLoanType "City Tuition Trust" "City Tuition Trust" =
      "STUDENT_LOAN" :=
  ⟨inferLoanType_deterministic_ordered.1 "Acme Mortgage Servicing"
      "Acme Mortgage Servicing" (by decide),
    inferLoanType_deterministic_ordered.2.1,
    inferLoanType_deterministic_ordered.2.2.1,
    ((inferLoanType_deterministic_ordered.2.2.2 "City Tuition Trust"
        "City Tuition Trust").2.1) (by decide) (by decide) (by decide)⟩

/-- C4: for an extraction whose other fields all validate, schema validation
succeeds exactly when at least one of statement_period, opening_balance,
closing_balance is present; with all three absent the input is rejected
with a validation error. -/
theorem validateExtraction_period_or_balances (e : Extraction)
    (hs : summaryFieldsOk e.account_summary = true)
    (ht : ∃ ts, validateTransactions e.transactions = Except.ok ts)
    (hr : rewardsOk e.rewards_summary = true)
    (hc : confidenceOk e.parsing_confidence = true) :
    (∃ e', validateExtraction e = Except.ok e') ↔
      anchorPresent e.account_summary = true := by
  obtain ⟨ts, hts⟩ := ht
  unfold validateExtraction validateAccountSummary
  rw [if_pos hs]
  cases hanchor : anchorPresent e.account_summary with
  | false => simp [hanchor]
  | true => simp [hanchor, hts, hr, hc]

/-- Concrete well-formed extraction used to witness C4. -/
def c4Extraction : Extraction :=
  { account_summary :=
      { account_type := "SAVINGS", institution_name := some "Chase",
        currency := some "USD", opening_balance := some 1000000 } }

/-- C4 witness: the theorem applied at a concrete extraction carrying an
opening balance. -/
theorem validateExtraction_period_or_balances_witness :
    (∃ e', validateExtraction c4Extraction = Except.ok e') ↔
      anchorPresent c4Extraction.account_summary = true :=
  validateExtraction_period_or_balances c4Extraction (by decide)
    ⟨[], rfl⟩ (by decide) (by decide)

/-- The end-to-end example extraction of the spec, with the account-level
currency exactly as the claim gives it: lowercase "usd". -/
def c3ExtractionLower : Extraction :=
  { account_summary :=
      { account_type := "CHECKING", institution_name := some "Bank Of America",
        account_number_masked := some "****5678", currency := some "usd",
        closing_balance := some 32507500 },
    transactions := [], parsing_confidence := some 92 }

/-- The same extraction with the currency already uppercase. -/
def c3Extraction : Extraction :=
  { account_summary :=
      { account_type := "CHECKING", institution_name := some "Bank Of America",
        account_number_masked := some "****5678", currency := some "USD",
        closing_balance := some 32507500 },
    transactions := [], parsing_confidence := some 92 }

/-- A freshly created upload row for the end-to-end example. -/
def c3Upload : Upload := { user := 7, status := .PENDING }

/-- C3 counterexample: the claimed extraction, with its lowercase
account-level currency code "usd", is rejected by schema validation —
`AccountSummary.currency` is matched against `^[A-Z]{3}$` without any
uppercase normalization (only `Transaction` has `mode="before"` uppercase
validators), so the claimed successful validation does not happen. -/
theorem c3_lowercase_currency_rejected :
    validateExtraction c3ExtractionLower =
      Except.error "AccountSummary field validation failed" ∧
    ¬ ∃ e', validateExtraction c3ExtractionLower = Except.ok e' := by
  constructor
  · rfl
  · intro ⟨e', he⟩
    rw [show validateExtraction c3ExtractionLower =
      Except.error "AccountSummary field validation failed" from rfl] at he
    exact Except.noConfusion he

/-- C3 amended: with the account-level currency written uppercase ("USD"),
the extraction validates unchanged, and processing it end-to-end creates
one Asset with value 3250.75 and currency USD, appends exactly one
HistoryEntry with source STATEMENT_UPLOAD, and marks the upload COMPLETED
with confidence_score 92.00. -/
theorem c3_end_to_end_uppercase :
    validateExtraction c3Extraction = Except.ok c3Extraction ∧
    (runTask "USD" [.parsed c3Extraction] c3Upload emptyDb).upload.status =
      UStatus.COMPLETED ∧
    (runTask "USD" [.parsed c3Extraction] c3Upload emptyDb).upload.confidence_score =
      some 9200 ∧
    (runTask "USD" [.parsed c3Extraction] c3Upload emptyDb).db.assets.map
      (fun a => (a.value, a.currency)) = [(32507500, "USD")] ∧
    suHistCount (runTask "USD" [.parsed c3Extraction] c3Upload emptyDb).db = 1 ∧
    (runTask "USD" [.parsed c3Extraction] c3Upload emptyDb).log =
      [UStatus.PROCESSING, UStatus.COMPLETED] := by
  exact ⟨rfl, rfl, rfl, rfl, rfl, rfl⟩

/-- C9: calling `populate_from_extraction` with an account type outside the
three supported families raises `ValueError` and leaves assets,
liabilities and history untouched — but the currency get-or-create has
already run, so the currency table change is kept (the failure is not
atomic with respect to the currency table). -/
theorem populate_unsupported_type_nonatomic (dc : String) (user : Nat)
    (e : Extraction) (db : Db)
    (h : isSupportedAccountType e.account_summary.account_type = false) :
    populateFromExtraction dc user e db =
      (Except.error ("Unsupported account type: " ++ e.account_summary.account_type),
       { db with
          currencies := currencyGetOrCreate
            (resolveCurrencyCode dc e.account_summary.currency) db.currencies
       }) := by
  unfold populateFromExtraction getOrCreateCurrency
  simp only [isSupportedAccountType, Bool.or_eq_false_iff,
    decide_eq_false_iff_not] at h
  obtain ⟨⟨h1, h2⟩, h3⟩ := h
  dsimp only
  rw [if_neg h1, if_neg (by simpa using h2), if_neg (by simpa using h3)]

/-- Unsupported-type extraction used to witness C9. -/
def c9Extraction : Extraction :=
  { account_summary :=
      { account_type := "INVESTMENT", institution_name := some "Vanguard",
        currency := some "EUR", closing_balance := some 5000000 } }

/-- C9 witness: at a concrete unsupported extraction against the empty
database, the call errors, creates no position and no history, yet the EUR
currency row has been created. -/
theorem populate_unsupported_type_nonatomic_witness :
    populateFromExtraction "USD" 0 c9Extraction emptyDb =
      (Except.error "Unsupported account type: INVESTMENT",
       { emptyDb with currencies := ["EUR"] }) ∧
    emptyDb.currencies = [] :=
  ⟨(populate_unsupported_type_nonatomic "USD" 0 c9Extraction emptyDb
      (by decide)).trans rfl, rfl⟩

/-- A pending upload used in the retry scenarios. -/
def c5Upload : Upload := { user := 1, status := .PENDING }

/-- C5 counterexample: when the extraction backend is unconfigured, the
`ValueError` raised by `_get_client` is caught by the task's generic
`except Exception` branch (pydantic's `ValidationError` clause does not
match a plain `ValueError`): the upload has already been transitioned to
PROCESSING, is not marked FAILED on that attempt, and a retry with backoff
60 is scheduled — contradicting "never retries". -/
theorem config_error_is_retried_counterexample :
    (runTask "USD"
      [.configMissing "GOOGLE_GEMINI_API_KEY is not configured in settings"]
      c5Upload emptyDb).delays = [60] ∧
    (runTask "USD"
      [.configMissing "GOOGLE_GEMINI_API_KEY is not configured in settings"]
      c5Upload emptyDb).log = [UStatus.PROCESSING] ∧
    (runTask "USD"
      [.configMissing "GOOGLE_GEMINI_API_KEY is not configured in settings"]
      c5Upload emptyDb).upload.status = UStatus.PROCESSING := by
  exact ⟨rfl, rfl, rfl⟩

/-- C5 amended: a missing-credentials `ValueError` is handled like any
generic unexpected exception: each attempt first transitions the upload to
PROCESSING, the error is retried with exponential backoff (60, 120, 240),
and only after the retry cap is exhausted is the upload marked FAILED with
the max-retries annotation around the configuration message. -/
theorem config_error_retried_like_transient (m dc : String) (u : Upload)
    (db : Db) :
    (runTask dc (List.replicate (maxRetries + 1) (.configMissing m)) u db).log =
      List.replicate (maxRetries + 1) UStatus.PROCESSING ++ [UStatus.FAILED] ∧
    (runTask dc (List.replicate (maxRetries + 1) (.configMissing m)) u db).delays =
      [60, 120, 240] ∧
    (runTask dc (List.replicate (maxRetries + 1) (.configMissing m)) u db).upload.error_message =
      some ("Max retries exceeded. Unexpected error: " ++ m) ∧
    (runTask dc (List.replicate (maxRetries + 1) (.configMissing m)) u db).upload.status =
      UStatus.FAILED ∧
    (runTask dc (List.replicate (maxRetries + 1) (.configMissing m)) u db).db = db := by
  exact ⟨rfl, rfl, rfl, rfl, rfl⟩

/-- The deposit populator never raises: its result is always `ok`. -/
theorem populateDepositAccount_fst_isOk (user : Nat) (e : Extraction)
    (curr : String) (db : Db) :
    ∃ r db', populateDepositAccount user e curr db = (Except.ok r, db') := by
  unfold populateDepositAccount
  rcases hfind : findAsset user
      (strOr e.account_summary.institution_name "Unknown Bank")
      e.account_summary.account_number_masked "CASH" db.assets with _ | a <;>
    simp only [hfind] <;> split <;> exact ⟨_, _, rfl⟩

/-- The credit-card populator never raises. -/
theorem populateCreditCard_fst_isOk (user : Nat) (e : Extraction)
    (curr : String) (db : Db) :
    ∃ r db', populateCreditCard user e curr db = (Except.ok r, db') := by
  unfold populateCreditCard
  rcases hfind : findLiab user
      (strOr e.account_summary.institution_name "Unknown Bank")
      e.account_summary.account_number_masked "CREDIT_CARD" db.liabilities
      with _ | l <;>
    simp only [hfind] <;> split <;> exact ⟨_, _, rfl⟩

/-- The loan populator never raises. -/
theorem populateLoan_fst_isOk (user : Nat) (e : Extraction)
    (curr : String) (db : Db) :
    ∃ r db', populateLoan user e curr db = (Except.ok r, db') := by
  unfold populateLoan
  rcases hfind : findLiab user
      (strOr e.account_summary.institution_name "Unknown Lender")
      e.account_summary.account_number_masked
      (inferLoanType (strOr e.account_summary.institution_name "Unknown Lender")
        (if strTruthy e.account_summary.account_number_masked then
          strOr e.account_summary.institution_name "Unknown Lender" ++ " - " ++
            e.account_summary.account_number_masked.getD ""
         else strOr e.account_summary.institution_name "Unknown Lender"))
      db.liabilities with _ | l <;>
    simp only [hfind] <;> split <;> exact ⟨_, _, rfl⟩

/-- A loan-family account type is not CREDIT_CARD. -/
theorem loan_type_ne_credit_card {s : String}
    (h : loanAccountTypes.contains s = true) : ¬(s = "CREDIT_CARD") := by
  have hm : s ∈ loanAccountTypes := by simpa using h
  fin_cases hm <;> decide

/-- A deposit-family account type is not CREDIT_CARD. -/
theorem deposit_type_ne_credit_card {s : String}
    (h : depositAccountTypes.contains s = true) : ¬(s = "CREDIT_CARD") := by
  have hm : s ∈ depositAccountTypes := by simpa using h
  fin_cases hm <;> decide

/-- A deposit-family account type is not in the loan family. -/
theorem deposit_type_not_loan {s : String}
    (h : depositAccountTypes.contains s = true) :
    loanAccountTypes.contains s = false := by
  have hm : s ∈ depositAccountTypes := by simpa using h
  fin_cases hm <;> decide

/-- For any supported account type, `populate_from_extraction` succeeds. -/
theorem populate_isOk_of_supported (dc : String) (user : Nat) (e : Extraction)
    (db : Db)
    (h : isSupportedAccountType e.account_summary.account_type = true) :
    ∃ r db', populateFromExtraction dc user e db = (Except.ok r, db') := by
  unfold populateFromExtraction getOrCreateCurrency
  dsimp only
  simp only [isSupportedAccountType, Bool.or_eq_true, decide_eq_true_eq] at h
  rcases h with (h | h) | h
  · rw [if_pos h]
    exact populateCreditCard_fst_isOk ..
  · rw [if_neg (loan_type_ne_credit_card h), if_pos h]
    exact populateLoan_fst_isOk ..
  · rw [if_neg (deposit_type_ne_credit_card h),
      if_neg (by simpa using deposit_type_not_loan h), if_pos h]
    exact populateDepositAccount_fst_isOk ..

/-- Every terminal COMPLETED transition of the task stores a confidence
score: the `upload.confidence_score` of a run that ends COMPLETED (starting
from a non-COMPLETED upload) is never null. -/
theorem runTaskAux_completed_isSome (dc : String) (outs : List AttemptOutcome) :
    ∀ (r : Nat) (u : Upload) (db : Db) (ds : List Nat) (lg : List UStatus),
      u.status ≠ UStatus.COMPLETED →
      (runTaskAux dc outs r u db ds lg).upload.status = UStatus.COMPLETED →
      (runTaskAux dc outs r u db ds lg).upload.confidence_score.isSome = true := by
  induction outs with
  | nil =>
    intro r u db ds lg hne hst
    exact absurd (by simpa [runTaskAux] using hst) hne
  | cons o rest ih =>
    intro r u db ds lg hne hst
    cases o with
    | parsed e =>
      rcases hpop : populateFromExtraction dc u.user e db with ⟨res, db1⟩
      cases res with
      | ok pr =>
        simp [runTaskAux, markAsProcessing, hpop, markAsCompleted] at hst ⊢
      | error m =>
        by_cases hr : r < maxRetries
        · simp only [runTaskAux, markAsProcessing, hpop, hr, if_true] at hst ⊢
          exact ih _ _ _ _ _ (by simp) hst
        · simp [runTaskAux, markAsProcessing, hpop, hr, markAsFailed] at hst
    | validationFailure m =>
      simp [runTaskAux, markAsProcessing, markAsFailed] at hst
    | fileMissing m =>
      simp [runTaskAux, markAsProcessing, markAsFailed] at hst
    | configMissing m =>
      by_cases hr : r < maxRetries
      · simp only [runTaskAux, markAsProcessing, hr, if_true] at hst ⊢
        exact ih _ _ _ _ _ (by simp) hst
      · simp [runTaskAux, markAsProcessing, hr, markAsFailed] at hst
    | transient m =>
      by_cases hr : r < maxRetries
      · simp only [runTaskAux, markAsProcessing, hr, if_true] at hst ⊢
        exact ih _ _ _ _ _ (by simp) hst
      · simp [runTaskAux, markAsProcessing, hr, markAsFailed] at hst

/-- C10: every upload the task marks COMPLETED carries a non-null persisted
confidence score; when `parsing_confidence` is absent or zero the stored
value is 0.00 (so a missing confidence is indistinguishable from a reported
zero), and a supported single-attempt success with absent-or-zero
confidence persists exactly `some 0`. -/
theorem completed_upload_confidence_nonnull :
    (∀ (dc : String) (outs : List AttemptOutcome) (u : Upload) (db : Db),
      u.status ≠ UStatus.COMPLETED →
      (runTask dc outs u db).upload.status = UStatus.COMPLETED →
      (runTask dc outs u db).upload.confidence_score.isSome = true) ∧
    (∀ e : Extraction,
      e.parsing_confidence = none ∨ e.parsing_confidence = some 0 →
      computeConfidence e = 0) ∧
    (∀ (dc : String) (e : Extraction) (u : Upload) (db : Db),
      isSupportedAccountType e.account_summary.account_type = true →
      (e.parsing_confidence = none ∨ e.parsing_confidence = some 0) →
      (runTask dc [.parsed e] u db).upload.confidence_score = some 0) := by
  refine ⟨?_, ?_, ?_⟩
  · intro dc outs u db hne hst
    exact runTaskAux_completed_isSome dc outs 0 u db [] [] hne hst
  · intro e h
    rcases h with h | h <;> simp [computeConfidence, h]
  · intro dc e u db hsup hconf
    obtain ⟨r, db', hpop⟩ := populate_isOk_of_supported dc u.user e db hsup
    have hc : computeConfidence e = 0 := by
      rcases hconf with h | h <;> simp [computeConfidence, h]
    simp [runTask, runTaskAux, markAsProcessing, hpop, markAsCompleted, hc]

/-- Upload and extraction used to witness C10. -/
def c10Upload : Upload := { user := 3, status := .PENDING }

/-- Extraction with no reported parsing confidence, used to witness C10. -/
def c10Extraction : Extraction :=
  { account_summary :=
      { account_type := "SAVINGS", institution_name := some "Ally",
        currency := some "USD", closing_balance := some 1234500 },
    parsing_confidence := none }

/-- C10 witness: the theorem applied at a concrete run whose extraction
reports no confidence. -/
theorem completed_upload_confidence_nonnull_witness :
    (runTask "USD" [.parsed c10Extraction] c10Upload emptyDb).upload.confidence_score.isSome
        = true ∧
    computeConfidence c10Extraction = 0 ∧
    (runTask "USD" [.parsed c10Extraction] c10Upload emptyDb).upload.confidence_score
        = some 0 :=
  ⟨completed_upload_confidence_nonnull.1 "USD" [.parsed c10Extraction]
      c10Upload emptyDb (by decide) rfl,
    completed_upload_confidence_nonnull.2.1 c10Extraction (Or.inl rfl),
    completed_upload_confidence_nonnull.2.2 "USD" c10Extraction c10Upload
      emptyDb (by decide) (Or.inl rfl)⟩

/-- A prefix of `l` is also a prefix of `l ++ r`. -/
theorem startsWithL_append (n : List Char) (r : List Char) :
    ∀ l, startsWithL n l = true → startsWithL n (l ++ r) = true := by
  induction n with
  | nil => intro l _; rfl
  | cons a as ih =>
    intro l h
    cases l with
    | nil => simp [startsWithL] at h
    | cons b bs =>
      simp only [startsWithL, Bool.and_eq_true, beq_iff_eq] at h
      simp only [List.cons_append, startsWithL, Bool.and_eq_true, beq_iff_eq]
      exact ⟨h.1, ih bs h.2⟩

/-- The empty needle occurs in every haystack. -/
theorem containsSub_nil (l : List Char) : containsSub [] l = true := by
  cases l <;> rfl

/-- A needle occurring in `l` also occurs in `l ++ r`. -/
theorem containsSub_append_left (n r : List Char) :
    ∀ l, containsSub n l = true → containsSub n (l ++ r) = true := by
  intro l
  induction l with
  | nil =>
    intro h
    cases n with
    | nil => exact containsSub_nil r
    | cons a as => simp [containsSub, startsWithL] at h
  | cons b bs ih =>
    intro h
    rw [List.cons_append]
    rw [containsSub] at h ⊢
    have h' : startsWithL n (b :: bs) = true ∨ containsSub n bs = true := by
      simpa using h
    rcases h' with h1 | h2
    · have := startsWithL_append n r (b :: bs) h1
      rw [List.cons_append] at this
      simp [this]
    · simp [ih h2]

/-- The FAILED message written after retry exhaustion always contains the
max-retries annotation. -/
theorem maxRetries_message_has_marker (m : String) :
    strContains ("Max retries exceeded. Unexpected error: " ++ m)
      "Max retries exceeded" = true := by
  have hl : ("Max retries exceeded. Unexpected error: " ++ m).toList =
      "Max retries exceeded. Unexpected error: ".toList ++ m.toList := rfl
  rw [strContains, hl]
  exact containsSub_append_left _ _ _ (by decide)

/-- C6: a generic exception is retried with backoff delay 60·2^r up to
`max_retries`; `k ≤ 3` transient failures followed by a successful attempt
produce exactly one terminal COMPLETED transition and no FAILED transition,
with the upload PROCESSING between attempts and delays 60, 120, ...; four
consecutive transient failures produce exactly one terminal FAILED
transition whose message carries the max-retries annotation. -/
theorem retry_backoff_policy :
    (∀ (k : Nat) (m dc : String) (e : Extraction) (u : Upload) (db : Db),
      k ≤ maxRetries →
      isSupportedAccountType e.account_summary.account_type = true →
      (runTask dc (List.replicate k (.transient m) ++ [.parsed e]) u db).log =
        List.replicate (k + 1) UStatus.PROCESSING ++ [UStatus.COMPLETED] ∧
      (runTask dc (List.replicate k (.transient m) ++ [.parsed e]) u db).delays =
        (List.range k).map (fun i => 60 * 2 ^ i) ∧
      (runTask dc (List.replicate k (.transient m) ++ [.parsed e]) u db).upload.status =
        UStatus.COMPLETED) ∧
    (∀ (m dc : String) (u : Upload) (db : Db),
      (runTask dc (List.replicate (maxRetries + 1) (.transient m)) u db).log =
        List.replicate (maxRetries + 1) UStatus.PROCESSING ++ [UStatus.FAILED] ∧
      (runTask dc (List.replicate (maxRetries + 1) (.transient m)) u db).delays =
        [60, 120, 240] ∧
      (runTask dc (List.replicate (maxRetries + 1) (.transient m)) u db).upload.error_message =
        some ("Max retries exceeded. Unexpected error: " ++ m) ∧
      strContains ("Max retries exceeded. Unexpected error: " ++ m)
        "Max retries exceeded" = true ∧
      (runTask dc (List.replicate (maxRetries + 1) (.transient m)) u db).upload.status =
        UStatus.FAILED) := by
  constructor
  · intro k m dc e u db hk hsup
    obtain ⟨r1, db1, hp⟩ := populate_isOk_of_supported dc u.user e db hsup
    simp only [maxRetries] at hk
    interval_cases k <;>
      refine ⟨?_, ?_, ?_⟩ <;>
      simp [runTask, runTaskAux, markAsProcessing, hp, markAsCompleted,
        maxRetries, List.replicate, List.range_succ]
  · intro m dc u db
    exact ⟨rfl, rfl, rfl, maxRetries_message_has_marker m, rfl⟩

/-- Upload and extraction used to witness C6. -/
def c6Upload : Upload := { user := 2, status := .PENDING }

/-- Supported extraction used to witness C6. -/
def c6Extraction : Extraction :=
  { account_summary :=
      { account_type := "CHECKING", institution_name := some "Wells Fargo",
        currency := some "USD", closing_balance := some 100000 },
    parsing_confidence := some 80 }

/-- C6 witness: the theorem applied at two transient failures followed by a
success, and at four consecutive transient failures. -/
theorem retry_backoff_policy_witness :
    ((runTask "USD" (List.replicate 2 (.transient "backend outage") ++
        [.parsed c6Extraction]) c6Upload emptyDb).log =
      List.replicate 3 UStatus.PROCESSING ++ [UStatus.COMPLETED] ∧
     (runTask "USD" (List.replicate 2 (.transient "backend outage") ++
        [.parsed c6Extraction]) c6Upload emptyDb).delays =
      (List.range 2).map (fun i => 60 * 2 ^ i)) ∧
    (runTask "USD" (List.replicate (maxRetries + 1) (.transient "backend outage"))
        c6Upload emptyDb).upload.error_message =
      some ("Max retries exceeded. Unexpected error: backend outage") :=
  have h1 := retry_backoff_policy.1 2 "backend outage" "USD" c6Extraction
    c6Upload emptyDb (by decide) (by decide)
  have h2 := retry_backoff_policy.2 "backend outage" "USD" c6Upload emptyDb
  ⟨⟨h1.1, h1.2.1⟩, h2.2.2.1⟩

/-- On a deposit-family account type, `populate_from_extraction` is the
currency get-or-create followed by the deposit populator. -/
theorem populate_dispatch_deposit (dc : String) (user : Nat) (e : Extraction)
    (db : Db)
    (hdep : depositAccountTypes.contains e.account_summary.account_type = true) :
    populateFromExtraction dc user e db =
      populateDepositAccount user e
        (resolveCurrencyCode dc e.account_summary.currency)
        { db with
          currencies := currencyGetOrCreate
            (resolveCurrencyCode dc e.account_summary.currency) db.currencies
        } := by
  unfold populateFromExtraction getOrCreateCurrency
  dsimp only
  rw [if_neg (deposit_type_ne_credit_card hdep),
    if_neg (by simpa using deposit_type_not_loan hdep), if_pos hdep]

/-- On CREDIT_CARD, `populate_from_extraction` is the currency
get-or-create followed by the credit-card populator. -/
theorem populate_dispatch_credit_card (dc : String) (user : Nat)
    (e : Extraction) (db : Db)
    (hcc : e.account_summary.account_type = "CREDIT_CARD") :
    populateFromExtraction dc user e db =
      populateCreditCard user e
        (resolveCurrencyCode dc e.account_summary.currency)
        { db with
          currencies := currencyGetOrCreate
            (resolveCurrencyCode dc e.account_summary.currency) db.currencies
        } := by
  unfold populateFromExtraction getOrCreateCurrency
  dsimp only
  rw [if_pos hcc]

/-- On a loan-family account type, `populate_from_extraction` is the
currency get-or-create followed by the loan populator. -/
theorem populate_dispatch_loan (dc : String) (user : Nat) (e : Extraction)
    (db : Db)
    (hloan : loanAccountTypes.contains e.account_summary.account_type = true) :
    populateFromExtraction dc user e db =
      populateLoan user e
        (resolveCurrencyCode dc e.account_summary.currency)
        { db with
          currencies := currencyGetOrCreate
            (resolveCurrencyCode dc e.account_summary.currency) db.currencies
        } := by
  unfold populateFromExtraction getOrCreateCurrency
  dsimp only
  rw [if_neg (loan_type_ne_credit_card hloan), if_pos hloan]

/-- After an in-place update (SQL UPDATE by primary key) of every row with
the updated row's id, the first row found under that id is the updated row. -/
theorem find_update_asset (a' : Asset) :
    ∀ l : List Asset, (∃ x ∈ l, x.id = a'.id) →
      (l.map (fun x => if x.id = a'.id then a' else x)).find?
        (fun x => x.id == a'.id) = some a' := by
  intro l
  induction l with
  | nil => intro h; simp at h
  | cons y ys ih =>
    intro h
    by_cases hy : y.id = a'.id
    · simp [List.find?, hy]
    · have h' : ∃ x ∈ ys, x.id = a'.id := by
        obtain ⟨x, hx, hxid⟩ := h
        rcases List.mem_cons.mp hx with rfl | hx
        · exact absurd hxid hy
        · exact ⟨x, hx, hxid⟩
      simp only [List.map_cons, if_neg hy]
      rw [List.find?_cons_of_neg _ (by simpa using hy)]
      exact ih h'

/-- C2: when a CASH position already exists for the key (user, institution,
masked number, subtype) with stored value 1000.00 and the extraction's
closing balance is 1500.00, reconciliation returns `updated=True`, stores
1500.00 on the position, appends exactly one new STATEMENT_UPLOAD-tagged
history entry for the call, and creates no MANUAL-tagged entry (the
save-time auto-history is suppressed via `skip_history=True`). -/
theorem reconcile_value_change_update (dc : String) (user : Nat)
    (e : Extraction) (db : Db) (a : Asset)
    (hdep : depositAccountTypes.contains e.account_summary.account_type = true)
    (hfind : findAsset user
        (strOr e.account_summary.institution_name "Unknown Bank")
        e.account_summary.account_number_masked "CASH" db.assets = some a)
    (hval : a.value = 10000000)
    (hclose : e.account_summary.closing_balance = some 15000000) :
    ∃ r db',
      populateFromExtraction dc user e db = (Except.ok r, db') ∧
      r.created = false ∧ r.updated = true ∧ r.targetId = a.id ∧
      (db'.assets.find? (fun x => x.id == a.id)).map Asset.value =
        some 15000000 ∧
      (∃ c, db'.assetHistory = db.assetHistory ++
        [{ asset_id := a.id, value := 15000000, currency := c,
           source := STATEMENT_UPLOAD }]) ∧
      db'.liabilityHistory = db.liabilityHistory ∧
      manualHistCount db' = manualHistCount db := by
  rw [populate_dispatch_deposit dc user e db hdep]
  have hmem : a ∈ db.assets := List.mem_of_find?_eq_some hfind
  unfold populateDepositAccount
  simp only [hclose, hfind, Option.getD_some]
  split
  case isFalse hcond =>
    exfalso
    simp [hval] at hcond
  case isTrue hcond =>
    refine ⟨_, _, rfl, rfl, rfl, rfl, ?_, ⟨_, rfl⟩, rfl, ?_⟩
    · exact (congrArg (Option.map Asset.value)
        (find_update_asset
          { a with value := 15000000,
                   currency := resolveCurrencyCode dc e.account_summary.currency,
                   is_active := true }
          db.assets ⟨a, hmem, rfl⟩)).trans rfl
    · simp [manualHistCount, List.filter_append, STATEMENT_UPLOAD, MANUAL,
        assetUpdateSaveSkip]

/-- Existing CASH asset row used to witness C2. -/
def c2Asset : Asset :=
  { id := 0, user := 5, institution := "Chase",
    account_number := some "****9999", asset_type := "CASH",
    name := "Chase Checking - ****9999", value := 10000000,
    currency := "USD", is_active := true }

/-- Database holding the pre-existing position, used to witness C2. -/
def c2Db : Db :=
  { currencies := ["USD"], assets := [c2Asset], liabilities := [],
    assetHistory := [{ asset_id := 0, value := 10000000, currency := "USD",
                       source := "STATEMENT_UPLOAD" }],
    liabilityHistory := [], nextAssetId := 1, nextLiabId := 0 }

/-- Same-key extraction with closing balance 1500.00, used to witness C2. -/
def c2Extraction : Extraction :=
  { account_summary :=
      { account_type := "CHECKING", institution_name := some "Chase",
        account_number_masked := some "****9999", currency := some "USD",
        closing_balance := some 15000000 } }

/-- C2 witness: the theorem applied at the concrete pre-existing position. -/
theorem reconcile_value_change_update_witness :
    ∃ r db',
      populateFromExtraction "USD" 5 c2Extraction c2Db = (Except.ok r, db') ∧
      r.created = false ∧ r.updated = true ∧ r.targetId = c2Asset.id ∧
      (db'.assets.find? (fun x => x.id == c2Asset.id)).map Asset.value =
        some 15000000 ∧
      (∃ c, db'.assetHistory = c2Db.assetHistory ++
        [{ asset_id := c2Asset.id, value := 15000000, currency := c,
           source := STATEMENT_UPLOAD }]) ∧
      db'.liabilityHistory = c2Db.liabilityHistory ∧
      manualHistCount db' = manualHistCount c2Db :=
  reconcile_value_change_update "USD" 5 c2Extraction c2Db c2Asset
    (by decide) (by decide) (by decide) (by decide)

/-- `get_or_create` finds a row whose key fields all match at the head. -/
theorem findAsset_head (user : Nat) (inst : String) (acct : Option String)
    (ty : String) (a : Asset) (l : List Asset)
    (h1 : a.user = user) (h2 : a.institution = inst)
    (h3 : a.account_number = acct) (h4 : a.asset_type = ty) :
    findAsset user inst acct ty (a :: l) = some a := by
  unfold findAsset
  apply List.find?_cons_of_pos
  simp [assetKeyMatch, h1, h2, h3, h4]

/-- Liability version of `findAsset_head`. -/
theorem findLiab_head (user : Nat) (creditor : String) (acct : Option String)
    (ty : String) (l : Liability) (ls : List Liability)
    (h1 : l.user = user) (h2 : l.creditor = creditor)
    (h3 : l.account_number = acct) (h4 : l.liability_type = ty) :
    findLiab user creditor acct ty (l :: ls) = some l := by
  unfold findLiab
  apply List.find?_cons_of_pos
  simp [liabKeyMatch, h1, h2, h3, h4]

/-- Create path of the deposit populator: when no row matches the key, one
asset row is inserted (its auto-save appends a MANUAL entry) and one
STATEMENT_UPLOAD entry is appended. -/
theorem populateDeposit_create (user : Nat) (e : Extraction) (curr : String)
    (db : Db)
    (hfind : findAsset user
        (strOr e.account_summary.institution_name "Unknown Bank")
        e.account_summary.account_number_masked "CASH" db.assets = none) :
    populateDepositAccount user e curr db =
      (Except.ok { created := true, updated := false,
                   targetId := db.nextAssetId, isAsset := true,
                   history_count := 1 },
       { db with
          assets := db.assets ++
            [{ id := db.nextAssetId, user := user,
               institution := strOr e.account_summary.institution_name "Unknown Bank",
               account_number := e.account_summary.account_number_masked,
               asset_type := "CASH",
               name :=
                 if strTruthy e.account_summary.account_number_masked then
                   strOr e.account_summary.institution_name "Unknown Bank" ++ " " ++
                     pyTitle (strReplaceChar e.account_summary.account_type '_' ' ') ++
                     " - " ++ e.account_summary.account_number_masked.getD ""
                 else
                   strOr e.account_summary.institution_name "Unknown Bank" ++ " " ++
                     pyTitle (strReplaceChar e.account_summary.account_type '_' ' '),
               value := e.account_summary.closing_balance.getD 0,
               currency := curr, is_active := true }]
          nextAssetId := db.nextAssetId + 1
          assetHistory := db.assetHistory ++
            [{ asset_id := db.nextAssetId,
               value := e.account_summary.closing_balance.getD 0,
               currency := curr, source := MANUAL },
             { asset_id := db.nextAssetId,
               value := e.account_summary.closing_balance.getD 0,
               currency := curr, source := STATEMENT_UPLOAD }]
       }) := by
  unfold populateDepositAccount
  simp only [hfind]
  simp [assetCreateSave]

/-- No-change path of the deposit populator: the row exists and already
stores the closing balance, so nothing is updated and exactly one
STATEMENT_UPLOAD entry is appended. -/
theorem populateDeposit_found_unchanged (user : Nat) (e : Extraction)
    (curr : String) (db : Db) (a : Asset)
    (hfind : findAsset user
        (strOr e.account_summary.institution_name "Unknown Bank")
        e.account_summary.account_number_masked "CASH" db.assets = some a)
    (hval : a.value = e.account_summary.closing_balance.getD 0) :
    populateDepositAccount user e curr db =
      (Except.ok { created := false, updated := false, targetId := a.id,
                   isAsset := true, history_count := 1 },
       { db with
          assetHistory := db.assetHistory ++
            [{ asset_id := a.id,
               value := e.account_summary.closing_balance.getD 0,
               currency := curr, source := STATEMENT_UPLOAD }]
       }) := by
  unfold populateDepositAccount
  simp only [hfind]
  rw [if_neg (by simp [hval])]

/-- Create path of the credit-card populator. -/
theorem populateCreditCard_create (user : Nat) (e : Extraction) (curr : String)
    (db : Db)
    (hfind : findLiab user
        (strOr e.account_summary.institution_name "Unknown Bank")
        e.account_summary.account_number_masked "CREDIT_CARD"
        db.liabilities = none) :
    populateCreditCard user e curr db =
      (Except.ok { created := true, updated := false,
                   targetId := db.nextLiabId, isAsset := false,
                   history_count := 1 },
       { db with
          liabilities := db.liabilities ++
            [{ id := db.nextLiabId, user := user,
               creditor := strOr e.account_summary.institution_name "Unknown Bank",
               account_number := e.account_summary.account_number_masked,
               liability_type := "CREDIT_CARD",
               name :=
                 if strTruthy e.account_summary.account_number_masked then
                   strOr e.account_summary.institution_name "Unknown Bank" ++
                     " - " ++ e.account_summary.account_number_masked.getD ""
                 else
                   strOr e.account_summary.institution_name "Unknown Bank",
               balance := e.account_summary.closing_balance.getD 0,
               currency := curr, is_active := true,
               credit_limit :=
                 match e.account_summary.credit_card_summary with
                 | none => none
                 | some c =>
                   if moneyTruthy c.credit_limit then c.credit_limit else none,
               monthly_payment :=
                 match e.account_summary.credit_card_summary with
                 | none => none
                 | some c =>
                   if moneyTruthy c.minimum_payment_due then c.minimum_payment_due
                   else none,
               payment_due_date :=
                 match e.account_summary.credit_card_summary with
                 | none => none
                 | some c => c.payment_due_date.map PyDate.day }]
          nextLiabId := db.nextLiabId + 1
          liabilityHistory := db.liabilityHistory ++
            [{ liability_id := db.nextLiabId,
               balance := e.account_summary.closing_balance.getD 0,
               currency := curr, source := MANUAL },
             { liability_id := db.nextLiabId,
               balance := e.account_summary.closing_balance.getD 0,
               currency := curr, source := STATEMENT_UPLOAD }]
       }) := by
  unfold populateCreditCard
  simp only [hfind]
  simp [liabCreateSave]

/-- No-change path of the credit-card populator. -/
theorem populateCreditCard_found_unchanged (user : Nat) (e : Extraction)
    (curr : String) (db : Db) (l : Liability)
    (hfind : findLiab user
        (strOr e.account_summary.institution_name "Unknown Bank")
        e.account_summary.account_number_masked "CREDIT_CARD"
        db.liabilities = some l)
    (hval : l.balance = e.account_summary.closing_balance.getD 0) :
    populateCreditCard user e curr db =
      (Except.ok { created := false, updated := false, targetId := l.id,
                   isAsset := false, history_count := 1 },
       { db with
          liabilityHistory := db.liabilityHistory ++
            [{ liability_id := l.id,
               balance := e.account_summary.closing_balance.getD 0,
               currency := curr, source := STATEMENT_UPLOAD }]
       }) := by
  unfold populateCreditCard
  simp only [hfind]
  rw [if_neg (by simp [hval])]

/-- Create path of the loan populator. -/
theorem populateLoan_create (user : Nat) (e : Extraction) (curr : String)
    (db : Db)
    (hfind : findLiab user
        (strOr e.account_summary.institution_name "Unknown Lender")
        e.account_summary.account_number_masked
        (inferLoanType
          (strOr e.account_summary.institution_name "Unknown Lender")
          (if strTruthy e.account_summary.account_number_masked then
            strOr e.account_summary.institution_name "Unknown Lender" ++
              " - " ++ e.account_summary.account_number_masked.getD ""
           else strOr e.account_summary.institution_name "Unknown Lender"))
        db.liabilities = none) :
    populateLoan user e curr db =
      (Except.ok { created := true, updated := false,
                   targetId := db.nextLiabId, isAsset := false,
                   history_count := 1 },
       { db with
          liabilities := db.liabilities ++
            [{ id := db.nextLiabId, user := user,
               creditor := strOr e.account_summary.institution_name "Unknown Lender",
               account_number := e.account_summary.account_number_masked,
               liability_type :=
                 inferLoanType
                   (strOr e.account_summary.institution_name "Unknown Lender")
                   (if strTruthy e.account_summary.account_number_masked then
                     strOr e.account_summary.institution_name "Unknown Lender" ++
                       " - " ++ e.account_summary.account_number_masked.getD ""
                    else strOr e.account_summary.institution_name "Unknown Lender"),
               name :=
                 if strTruthy e.account_summary.account_number_masked then
                   strOr e.account_summary.institution_name "Unknown Lender" ++
                     " - " ++ e.account_summary.account_number_masked.getD ""
                 else
                   strOr e.account_summary.institution_name "Unknown Lender",
               balance := e.account_summary.closing_balance.getD 0,
               currency := curr, is_active := true }]
          nextLiabId := db.nextLiabId + 1
          liabilityHistory := db.liabilityHistory ++
            [{ liability_id := db.nextLiabId,
               balance := e.account_summary.closing_balance.getD 0,
               currency := curr, source := MANUAL },
             { liability_id := db.nextLiabId,
               balance := e.account_summary.closing_balance.getD 0,
               currency := curr, source := STATEMENT_UPLOAD }]
       }) := by
  unfold populateLoan
  simp only [hfind]
  simp [liabCreateSave]

/-- No-change path of the loan populator. -/
theorem populateLoan_found_unchanged (user : Nat) (e : Extraction)
    (curr : String) (db : Db) (l : Liability)
    (hfind : findLiab user
        (strOr e.account_summary.institution_name "Unknown Lender")
        e.account_summary.account_number_masked
        (inferLoanType
          (strOr e.account_summary.institution_name "Unknown Lender")
          (if strTruthy e.account_summary.account_number_masked then
            strOr e.account_summary.institution_name "Unknown Lender" ++
              " - " ++ e.account_summary.account_number_masked.getD ""
           else strOr e.account_summary.institution_name "Unknown Lender"))
        db.liabilities = some l)
    (hval : l.balance = e.account_summary.closing_balance.getD 0) :
    populateLoan user e curr db =
      (Except.ok { created := false, updated := false, targetId := l.id,
                   isAsset := false, history_count := 1 },
       { db with
          liabilityHistory := db.liabilityHistory ++
            [{ liability_id := l.id,
               balance := e.account_summary.closing_balance.getD 0,
               currency := curr, source := STATEMENT_UPLOAD }]
       }) := by
  unfold populateLoan
  simp only [hfind]
  rw [if_neg (by simp [hval])]

/-- C1: for every user and every extraction of a supported account type,
reconciling twice from a store with no positions creates exactly one
position: the first call returns `created=true`, the second finds the same
row and returns `created=false, updated=false` with the stored value
unchanged, and each call appends exactly one STATEMENT_UPLOAD-tagged
history entry, so two such entries exist after the two calls. -/
theorem reconcile_idempotent_audit (dc : String) (user : Nat) (e : Extraction)
    (hs : isSupportedAccountType e.account_summary.account_type = true) :
    ∃ r1 db1 r2 db2,
      populateFromExtraction dc user e emptyDb = (Except.ok r1, db1) ∧
      populateFromExtraction dc user e db1 = (Except.ok r2, db2) ∧
      r1.created = true ∧ r1.history_count = 1 ∧
      r2.created = false ∧ r2.updated = false ∧ r2.history_count = 1 ∧
      db2.assets = db1.assets ∧ db2.liabilities = db1.liabilities ∧
      positionCount db2 = 1 ∧
      suHistCount db1 = 1 ∧ suHistCount db2 = 2 := by
  simp only [isSupportedAccountType, Bool.or_eq_true, decide_eq_true_eq] at hs
  rcases hs with (hcc | hloan) | hdep
  · exact ⟨_, _, _, _,
      (populate_dispatch_credit_card dc user e emptyDb hcc).trans
        (populateCreditCard_create user e _ _ rfl),
      (populate_dispatch_credit_card dc user e _ hcc).trans
        (populateCreditCard_found_unchanged user e _ _ _
          (findLiab_head _ _ _ _ _ _ rfl rfl rfl rfl) rfl),
      rfl, rfl, rfl, rfl, rfl, rfl, rfl, rfl, rfl, rfl⟩
  · exact ⟨_, _, _, _,
      (populate_dispatch_loan dc user e emptyDb hloan).trans
        (populateLoan_create user e _ _ rfl),
      (populate_dispatch_loan dc user e _ hloan).trans
        (populateLoan_found_unchanged user e _ _ _
          (findLiab_head _ _ _ _ _ _ rfl rfl rfl rfl) rfl),
      rfl, rfl, rfl, rfl, rfl, rfl, rfl, rfl, rfl, rfl⟩
  · exact ⟨_, _, _, _,
      (populate_dispatch_deposit dc user e emptyDb hdep).trans
        (populateDeposit_create user e _ _ rfl),
      (populate_dispatch_deposit dc user e _ hdep).trans
        (populateDeposit_found_unchanged user e _ _ _
          (findAsset_head _ _ _ _ _ _ rfl rfl rfl rfl) rfl),
      rfl, rfl, rfl, rfl, rfl, rfl, rfl, rfl, rfl, rfl⟩

/-- Supported loan extraction used to witness C1. -/
def c1Extraction : Extraction :=
  { account_summary :=
      { account_type := "LOAN", institution_name := some "Toyota Auto Finance",
        account_number_masked := some "****4321", currency := some "USD",
        closing_balance := some 87000000 } }

/-- C1 witness: the theorem applied at a concrete loan extraction. -/
theorem reconcile_idempotent_audit_witness :
    ∃ r1 db1 r2 db2,
      populateFromExtraction "USD" 9 c1Extraction emptyDb = (Except.ok r1, db1) ∧
      populateFromExtraction "USD" 9 c1Extraction db1 = (Except.ok r2, db2) ∧
      r1.created = true ∧ r1.history_count = 1 ∧
      r2.created = false ∧ r2.updated = false ∧ r2.history_count = 1 ∧
      db2.assets = db1.assets ∧ db2.liabilities = db1.liabilities ∧
      positionCount db2 = 1 ∧
      suHistCount db1 = 1 ∧ suHistCount db2 = 2 :=
  reconcile_idempotent_audit "USD" 9 c1Extraction (by decide)

end NetWorth
